import Mathlib

/-!
Shallow embedding of the Spanreed Obsidian plugin (src/main.ts).

The source file contains three plugin variants separated by document markers:
the initial variant (lines 1-304) and an identical copy of it (lines 648-890),
both with the dispatch switch inlined in `pollRedisTaskMessageQueue` and no
fault boundary, and the hardened variant (lines 305-647) that factors the
dispatch switch into `handleSpanreedRequest`, adds an environment-keyed
settings record, a watchdog monitor event, and a try/catch/finally around the
polling cycle.

JavaScript values that appear in front-matter properties and request
parameters are modelled two-level: scalar atoms (null, boolean, number,
string) and arrays of atoms, with structural decidable equality standing in
for the strict equality that `Array.prototype.indexOf` applies to scalars.
-/

namespace Spanreed

/-- A runtime JS value as it occurs in front-matter property entries and
request parameter values: the primitives (null, boolean, number, string),
which JS strict equality `===` compares structurally, and non-primitive
values (arrays, objects), which `===` compares by reference identity.  A
`jref` carries the allocation identity `id` — two separately parsed
composites are distinct objects with distinct ids even when their JSON text
`shape` is identical — so derived decidable equality on this type is exactly
JS strict equality, the comparison `Array.prototype.indexOf` applies. -/
inductive JsonAtom where
  | jnull
  | jbool (b : Bool)
  | jnum (n : Int)
  | jstr (s : String)
  | jref (id : Nat) (shape : String)
deriving DecidableEq, Repr

/-- A front-matter / wire value: either a scalar atom or an array of atoms
(the shape `modify-property` list operations manipulate). -/
inductive JsonValue where
  | atom (a : JsonAtom)
  | arr (xs : List JsonAtom)
deriving DecidableEq, Repr

/-- Front matter of a note: an ordered key/value property bag, as the
`processFrontMatter` callback sees it. -/
def Frontmatter : Type := List (String × JsonValue)

instance : DecidableEq Frontmatter := by
  unfold Frontmatter
  infer_instance

instance : Repr Frontmatter := by
  unfold Frontmatter
  infer_instance

/-- Reading `frontmatter[property]`: `none` models the JS `undefined`. -/
def fmLookup : List (String × JsonValue) → String → Option JsonValue
  | [], _ => none
  | (k, w) :: rest, p => if k == p then some w else fmLookup rest p

/-- Writing `frontmatter[property] = v`: replace in place when the key
exists, append otherwise (JS object assignment keeps key order). -/
def fmSet : List (String × JsonValue) → String → JsonValue → List (String × JsonValue)
  | [], p, v => [(p, v)]
  | (k, w) :: rest, p, v =>
      if k == p then (k, v) :: rest else (k, w) :: fmSet rest p v

/-- The JS `delete frontmatter[property]` statement. -/
def fmDelete (fm : List (String × JsonValue)) (p : String) : List (String × JsonValue) :=
  fm.filter (fun kv => kv.fst != p)

/-- `Array.prototype.indexOf`: index of the first strictly-equal element, or
`-1` when absent. -/
def jsIndexOf (xs : List JsonAtom) (v : JsonAtom) : Int :=
  match xs.findIdx? (fun x => x == v) with
  | some i => (i : Int)
  | none => -1

/-- Request parameters after `JSON.parse`.  The source declares per-method
parameter interfaces (`ModifyPropertyParams` with
filepath/property/operation/value, `QueryDataviewParams` with query) all
read off the same untyped `request.params` object; they are merged here into
one record, unused fields being ignored by each method.  The `value` field
is the parsed runtime value: a primitive, or a `jref` when the wire text
carried an array/object literal. -/
structure RequestParams where
  filepath : String
  property : String
  operation : String
  value : JsonAtom
  query : String
deriving DecidableEq, Repr

/-- The wire `SpanreedRpcRequest` envelope. -/
structure SpanreedRpcRequest where
  request_id : String
  method : String
  params : RequestParams
deriving DecidableEq, Repr

/-- The wire `SpanreedRpcResponse` envelope. -/
structure SpanreedRpcResponse where
  success : Bool
  result : JsonValue
deriving DecidableEq, Repr

/-- A parameter value as it stands in the JSON text of a queued request,
before `JSON.parse`: a primitive literal, or a composite (array/object)
literal described by its serialized text `shape`. -/
inductive WireValue where
  | wnull
  | wbool (b : Bool)
  | wnum (n : Int)
  | wstr (s : String)
  | wcomposite (shape : String)
deriving DecidableEq, Repr

/-- True on the primitive wire literals, false on array/object literals. -/
def WireValue.isPrimitive : WireValue → Bool
  | WireValue.wcomposite _ => false
  | _ => true

/-- The request parameters as they stand in the wire JSON text. -/
structure WireRequestParams where
  filepath : String
  property : String
  operation : String
  value : WireValue
  query : String
deriving DecidableEq, Repr

/-- A request envelope as it stands in the wire JSON text, before
`JSON.parse`. -/
structure WireRequest where
  request_id : String
  method : String
  params : WireRequestParams
deriving DecidableEq, Repr

/-- Parsing one parameter value (part of `JSON.parse(res.element)`), given
the next free allocation identity: a primitive literal parses to the equal
primitive on every parse; a composite literal allocates a fresh runtime
object — a new `jref` with the next identity — on every parse, which is why
`indexOf`'s strict equality never identifies two separately parsed
composites. -/
def parseParamValue : WireValue → Nat → JsonAtom × Nat
  | WireValue.wnull, n => (JsonAtom.jnull, n)
  | WireValue.wbool b, n => (JsonAtom.jbool b, n)
  | WireValue.wnum i, n => (JsonAtom.jnum i, n)
  | WireValue.wstr s, n => (JsonAtom.jstr s, n)
  | WireValue.wcomposite shape, n => (JsonAtom.jref n shape, n + 1)

/-- `JSON.parse(res.element)` on a queued request text: parse the parameter
value with the given allocation counter and return the runtime request
envelope together with the next free identity. -/
def parseRequest (w : WireRequest) (n : Nat) : SpanreedRpcRequest × Nat :=
  let pv := parseParamValue w.params.value n
  ({ request_id := w.request_id
     method := w.method
     params := { filepath := w.params.filepath
                 property := w.params.property
                 operation := w.params.operation
                 value := pv.1
                 query := w.params.query } }, pv.2)

/-- A markdown file of the vault: its path and its front matter. -/
structure VaultFile where
  path : String
  frontmatter : List (String × JsonValue)
deriving DecidableEq, Repr

deriving instance DecidableEq for Except

/-- The host (Obsidian) state the handlers touch: the vault's markdown file
list, the dataview plugin modelled as a finite query table (`Except.error`
entries are queries whose `tryQuery` promise rejects; a query outside the
table also rejects), and an optional fault injected into
`processFrontMatter` (a rejected front-matter write). -/
structure Host where
  markdownFiles : List VaultFile
  dataview : List (String × Except String JsonValue)
  frontmatterWriteFault : Option String
deriving DecidableEq

/-- The `for (let file of getMarkdownFiles()) if (file.path == filepath)`
loop with its early `break`: first file whose path equals `filepath`. -/
def findFile (files : List VaultFile) (filepath : String) : Option VaultFile :=
  files.find? (fun f => f.path == filepath)

/-- Replace the front matter of the files at `path` (the write-back step of
`processFrontMatter`). -/
def writeFrontmatter (files : List VaultFile) (path : String)
    (fm : List (String × JsonValue)) : List VaultFile :=
  files.map (fun f => if f.path == path then { f with frontmatter := fm } else f)

/-- The `app.fileManager.processFrontMatter(tfile, callback)` call: run the
callback on the file's front matter and write the result back, or reject with
the injected fault.  The callback communicates a response by assignment to
the enclosing `response` variable, modelled as an `Option SpanreedRpcResponse`
(`none` = the callback returned without assigning). -/
def processFrontMatter (host : Host) (tfile : VaultFile)
    (callback : List (String × JsonValue) → List (String × JsonValue) × Option SpanreedRpcResponse) :
    Except String (Host × Option SpanreedRpcResponse) :=
  match host.frontmatterWriteFault with
  | some e => Except.error e
  | none =>
      let r := callback tfile.frontmatter
      Except.ok ({ host with markdownFiles := writeFrontmatter host.markdownFiles tfile.path r.1 },
                 r.2)

/-- The `dv.tryQuery(query)` call of the dataview plugin: look the query up
in the host's table; an absent query rejects. -/
def tryQuery (host : Host) (query : String) : Except String JsonValue :=
  match host.dataview.find? (fun qr => qr.1 == query) with
  | some qr => qr.2
  | none => Except.error ("query failed: " ++ query)

/-- The initial value of the `response` variable before the dispatch switch
runs: `{"success": false, "result": "unknown error"}`. -/
def defaultResponse : SpanreedRpcResponse :=
  { success := false, result := JsonValue.atom (JsonAtom.jstr "unknown error") }

/-- The `addToList` callback body (hardened variant lines 449-461, identical
in the inline variant lines 170-182): absent property becomes `[]`; a
non-array property fails with "property is not a list" without assigning the
list; otherwise the value is pushed only when `indexOf` does not find it. -/
def addToListOnFm (property : String) (value : JsonAtom)
    (fm : List (String × JsonValue)) :
    List (String × JsonValue) × Option SpanreedRpcResponse :=
  let fm1 := if (fmLookup fm property).isNone
             then fmSet fm property (JsonValue.arr []) else fm
  match fmLookup fm1 property with
  | some (JsonValue.arr xs) =>
      let fm2 := if jsIndexOf xs value ≤ -1
                 then fmSet fm1 property (JsonValue.arr (xs ++ [value])) else fm1
      (fm2, some { success := true, result := JsonValue.atom JsonAtom.jnull })
  | _ =>
      (fm1, some { success := false
                   result := JsonValue.atom (JsonAtom.jstr "property is not a list") })

/-- The `removeFromList` callback body (hardened variant lines 464-477): an
absent property returns early without assigning `response`; a non-array
property fails; otherwise `splice` removes the first strictly-equal
occurrence and the callback reports success. -/
def removeFromListOnFm (property : String) (value : JsonAtom)
    (fm : List (String × JsonValue)) :
    List (String × JsonValue) × Option SpanreedRpcResponse :=
  match fmLookup fm property with
  | none => (fm, none)
  | some (JsonValue.arr xs) =>
      let index := jsIndexOf xs value
      let fm2 := if index > -1
                 then fmSet fm property (JsonValue.arr (xs.eraseIdx index.toNat)) else fm
      (fm2, some { success := true, result := JsonValue.atom JsonAtom.jnull })
  | some (JsonValue.atom _) =>
      (fm, some { success := false
                  result := JsonValue.atom (JsonAtom.jstr "property is not a list") })

/-- The `handleSpanreedRequest` method of the hardened variant (source lines
423-517).  A rejected promise awaited inside the method (a rejecting
`processFrontMatter` write or `dv.tryQuery`) propagates out of the method,
modelled as `Except.error`; every other path returns the `response`
variable, together with the possibly-updated host state. -/
def handleSpanreedRequest (host : Host) (request : SpanreedRpcRequest) :
    Except String (SpanreedRpcResponse × Host) :=
  if request.method == "generate-daily-note" then
    Except.ok ({ success := true, result := JsonValue.atom JsonAtom.jnull }, host)
  else if request.method == "modify-property" then
    match findFile host.markdownFiles request.params.filepath with
    | none =>
        Except.ok ({ success := false
                     result := JsonValue.atom (JsonAtom.jstr "file not found") }, host)
    | some tfile =>
      let property := request.params.property
      if request.params.operation == "addToList" then
        match processFrontMatter host tfile (addToListOnFm property request.params.value) with
        | Except.error e => Except.error e
        | Except.ok (host2, upd) => Except.ok (upd.getD defaultResponse, host2)
      else if request.params.operation == "removeFromList" then
        match processFrontMatter host tfile (removeFromListOnFm property request.params.value) with
        | Except.error e => Except.error e
        | Except.ok (host2, upd) => Except.ok (upd.getD defaultResponse, host2)
      else if request.params.operation == "setSingleValue" then
        match processFrontMatter host tfile
            (fun fm => (fmSet fm property (JsonValue.atom request.params.value), none)) with
        | Except.error e => Except.error e
        | Except.ok (host2, _) =>
            Except.ok ({ success := true, result := JsonValue.atom JsonAtom.jnull }, host2)
      else if request.params.operation == "deleteProperty" then
        match processFrontMatter host tfile (fun fm => (fmDelete fm property, none)) with
        | Except.error e => Except.error e
        | Except.ok (host2, _) =>
            Except.ok ({ success := true, result := JsonValue.atom JsonAtom.jnull }, host2)
      else if request.params.operation == "getProperty" then
        match processFrontMatter host tfile
            (fun fm => (fm, some { success := true
                                   result := (fmLookup fm property).getD (JsonValue.atom JsonAtom.jnull) })) with
        | Except.error e => Except.error e
        | Except.ok (host2, upd) => Except.ok (upd.getD defaultResponse, host2)
      else
        Except.ok (defaultResponse, host)
  else if request.method == "query-dataview" then
    match tryQuery host request.params.query with
    | Except.error e => Except.error e
    | Except.ok result => Except.ok ({ success := true, result := result }, host)
  else
    Except.ok ({ success := false
                 result := JsonValue.atom (JsonAtom.jstr ("unknown method " ++ request.method)) }, host)

/-- The dispatch switch inlined in `pollRedisTaskMessageQueue` of the
initial variant (source lines 146-236; byte-identical, modulo indentation,
in the third copy at lines 757-847).  Transcribed separately from
`handleSpanreedRequest` so the two can be compared. -/
def inlineDispatchV1 (host : Host) (request : SpanreedRpcRequest) :
    Except String (SpanreedRpcResponse × Host) :=
  if request.method == "generate-daily-note" then
    Except.ok ({ success := true, result := JsonValue.atom JsonAtom.jnull }, host)
  else if request.method == "modify-property" then
    match findFile host.markdownFiles request.params.filepath with
    | none =>
        Except.ok ({ success := false
                     result := JsonValue.atom (JsonAtom.jstr "file not found") }, host)
    | some tfile =>
      let property := request.params.property
      if request.params.operation == "addToList" then
        match processFrontMatter host tfile (addToListOnFm property request.params.value) with
        | Except.error e => Except.error e
        | Except.ok (host2, upd) => Except.ok (upd.getD defaultResponse, host2)
      else if request.params.operation == "removeFromList" then
        match processFrontMatter host tfile (removeFromListOnFm property request.params.value) with
        | Except.error e => Except.error e
        | Except.ok (host2, upd) => Except.ok (upd.getD defaultResponse, host2)
      else if request.params.operation == "setSingleValue" then
        match processFrontMatter host tfile
            (fun fm => (fmSet fm property (JsonValue.atom request.params.value), none)) with
        | Except.error e => Except.error e
        | Except.ok (host2, _) =>
            Except.ok ({ success := true, result := JsonValue.atom JsonAtom.jnull }, host2)
      else if request.params.operation == "deleteProperty" then
        match processFrontMatter host tfile (fun fm => (fmDelete fm property, none)) with
        | Except.error e => Except.error e
        | Except.ok (host2, _) =>
            Except.ok ({ success := true, result := JsonValue.atom JsonAtom.jnull }, host2)
      else if request.params.operation == "getProperty" then
        match processFrontMatter host tfile
            (fun fm => (fm, some { success := true
                                   result := (fmLookup fm property).getD (JsonValue.atom JsonAtom.jnull) })) with
        | Except.error e => Except.error e
        | Except.ok (host2, upd) => Except.ok (upd.getD defaultResponse, host2)
      else
        Except.ok (defaultResponse, host)
  else if request.method == "query-dataview" then
    match tryQuery host request.params.query with
    | Except.error e => Except.error e
    | Except.ok result => Except.ok ({ success := true, result := result }, host)
  else
    Except.ok ({ success := false
                 result := JsonValue.atom (JsonAtom.jstr ("unknown method " ++ request.method)) }, host)

/-! ## The dispatch loop -/

/-- Connection settings of one environment: `{spanreedUserId, redisUrl}`
(the initial variant's flat `SpanreedSettings` has the same two fields,
named `spanreedUserId` and `redis_url`). -/
structure ConnectionSettings where
  spanreedUserId : Int
  redisUrl : String
deriving DecidableEq, Repr

/-- The `Environment` union type of the hardened variant. -/
inductive Env where
  | production
  | staging
deriving DecidableEq, Repr

/-- The hardened variant's `SpanreedSettings`: one `ConnectionSettings`
record per environment plus the active environment. -/
structure SpanreedSettings where
  production : ConnectionSettings
  staging : ConnectionSettings
  activeEnvironment : Env
deriving DecidableEq, Repr

/-- `getActiveConnectionSettings` (source lines 419-421). -/
def getActiveConnectionSettings (s : SpanreedSettings) : ConnectionSettings :=
  match s.activeEnvironment with
  | Env.production => s.production
  | Env.staging => s.staging

/-- The task-queue key template literal
`obsidian-plugin-tasks:${spanreedUserId}`. -/
def taskQueueKey (spanreedUserId : Int) : String :=
  "obsidian-plugin-tasks:" ++ toString spanreedUserId

/-- The reply-queue key template literal
`obsidian-plugin-tasks:${spanreedUserId}:${request.request_id}`. -/
def replyQueueKey (spanreedUserId : Int) (request_id : String) : String :=
  "obsidian-plugin-tasks:" ++ toString spanreedUserId ++ ":" ++ request_id

/-- The monitor-queue key template literal
`obsidian-plugin-monitor:${spanreedUserId}`. -/
def monitorQueueKey (spanreedUserId : Int) : String :=
  "obsidian-plugin-monitor:" ++ toString spanreedUserId

/-- A message pushed onto a queue, kept structured rather than
JSON-stringified: either a monitor event `{user, kind[, message]}` or a
response envelope. -/
inductive WireMessage where
  | monitorEvent (user : Int) (kind : String) (message : Option String)
  | response (resp : SpanreedRpcResponse)
deriving DecidableEq, Repr

/-- `sendSpanreedWatchdogEvent` (source lines 541-546): the queue it pushes
to and the event it pushes. -/
def sendSpanreedWatchdogEvent (spanreedUserId : Int) : String × WireMessage :=
  (monitorQueueKey spanreedUserId,
   WireMessage.monitorEvent spanreedUserId "watchdog" none)

/-- `sendRedisErrorToSpanreedMonitor` (source lines 530-539): the queue it
pushes to and the event it pushes. -/
def sendRedisErrorToSpanreedMonitor (spanreedUserId : Int) (message : String) :
    String × WireMessage :=
  (monitorQueueKey spanreedUserId,
   WireMessage.monitorEvent spanreedUserId "error" (some message))

/-- A queue element as the cycle sees it after `blPop`: either a payload
`JSON.parse` throws on, or a well-formed request envelope. -/
inductive Payload where
  | malformed (raw : String)
  | wellFormed (request : SpanreedRpcRequest)
deriving DecidableEq, Repr

/-- The nondeterministic environment of one polling cycle: whether
connection establishment rejects, whether the watchdog `lPush` rejects, what
the `blPop` yields (a rejection, `null` on timeout, or an element), and
whether the response `lPush` rejects. -/
structure CycleEnv where
  connectFault : Option String
  watchdogFault : Option String
  popOutcome : Except String (Option Payload)
  pushFault : Option String
deriving DecidableEq, Repr

/-- One observable step of a polling cycle, in execution order. -/
inductive CycleStep where
  /-- `ensureRedisClient` returned with a live connection. -/
  | ensureConn
  /-- `lPush queue message` was performed. -/
  | push (queue : String) (message : WireMessage)
  /-- `blPop queue` was entered. -/
  | blPop (queue : String)
  /-- An error reached the cycle's `catch` block and was logged. -/
  | caught (message : String)
  /-- An error escaped the `pollRedisTaskMessageQueue` promise uncaught. -/
  | fault (message : String)
  /-- `registerInterval(window.setTimeout(..., 10 * 1000))` scheduled the
  next cycle. -/
  | reschedule
deriving DecidableEq, Repr

/-- True exactly on `CycleStep.fault` steps. -/
def CycleStep.isFault : CycleStep → Bool
  | CycleStep.fault _ => true
  | _ => false

/-- True exactly on `CycleStep.reschedule` steps. -/
def CycleStep.isReschedule : CycleStep → Bool
  | CycleStep.reschedule => true
  | _ => false

/-- True exactly on `CycleStep.blPop` steps. -/
def CycleStep.isBlPop : CycleStep → Bool
  | CycleStep.blPop _ => true
  | _ => false

/-- True on a push of a monitor event with the given kind tag. -/
def CycleStep.isMonitorPushOfKind (k : String) : CycleStep → Bool
  | CycleStep.push _ (WireMessage.monitorEvent _ kind _) => kind == k
  | _ => false

/-- True on a push of a response envelope (a reply-queue publish). -/
def CycleStep.isResponsePush : CycleStep → Bool
  | CycleStep.push _ (WireMessage.response _) => true
  | _ => false

/-- One cycle of the hardened variant's `pollRedisTaskMessageQueue` (source
lines 556-585): `try { ensureRedisClient; sendSpanreedWatchdogEvent; blPop
with 60s timeout; on an element JSON.parse, handleSpanreedRequest, lPush the
response } catch (e) { log } finally { reschedule }`.  Returns the cycle's
step trace and the host state after it. -/
def pollCycleV2 (settings : ConnectionSettings) (host : Host) (env : CycleEnv) :
    List CycleStep × Host :=
  match env.connectFault with
  | some e => ([CycleStep.caught e, CycleStep.reschedule], host)
  | none =>
    match env.watchdogFault with
    | some e => ([CycleStep.ensureConn, CycleStep.caught e, CycleStep.reschedule], host)
    | none =>
      let u := settings.spanreedUserId
      let wd := sendSpanreedWatchdogEvent u
      let pre := [CycleStep.ensureConn, CycleStep.push wd.1 wd.2,
                  CycleStep.blPop (taskQueueKey u)]
      match env.popOutcome with
      | Except.error e => (pre ++ [CycleStep.caught e, CycleStep.reschedule], host)
      | Except.ok none => (pre ++ [CycleStep.reschedule], host)
      | Except.ok (some (Payload.malformed raw)) =>
          (pre ++ [CycleStep.caught ("SyntaxError: unexpected token in " ++ raw),
                   CycleStep.reschedule], host)
      | Except.ok (some (Payload.wellFormed request)) =>
        match handleSpanreedRequest host request with
        | Except.error e => (pre ++ [CycleStep.caught e, CycleStep.reschedule], host)
        | Except.ok (resp, host2) =>
          match env.pushFault with
          | some e => (pre ++ [CycleStep.caught e, CycleStep.reschedule], host2)
          | none =>
              (pre ++ [CycleStep.push (replyQueueKey u request.request_id)
                         (WireMessage.response resp),
                       CycleStep.reschedule], host2)

/-- One cycle of the initial variant's `pollRedisTaskMessageQueue` (source
lines 129-241): no try/catch — a rejection anywhere in the awaited chain
(connect, blPop, JSON.parse inside the then-callback, the dispatch switch,
or the response lPush) escapes the method's promise, and the
`registerInterval(setTimeout(...))` on line 240, which runs only after the
await chain resolves, is skipped.  The initial variant emits no watchdog
event and calls `blPop` with timeout `0`. -/
def pollCycleV1 (settings : ConnectionSettings) (host : Host) (env : CycleEnv) :
    List CycleStep × Host :=
  match env.connectFault with
  | some e => ([CycleStep.fault e], host)
  | none =>
    let u := settings.spanreedUserId
    let pre := [CycleStep.ensureConn, CycleStep.blPop (taskQueueKey u)]
    match env.popOutcome with
    | Except.error e => (pre ++ [CycleStep.fault e], host)
    | Except.ok none => (pre ++ [CycleStep.reschedule], host)
    | Except.ok (some (Payload.malformed raw)) =>
        (pre ++ [CycleStep.fault ("SyntaxError: unexpected token in " ++ raw)], host)
    | Except.ok (some (Payload.wellFormed request)) =>
      match inlineDispatchV1 host request with
      | Except.error e => (pre ++ [CycleStep.fault e], host)
      | Except.ok (resp, host2) =>
        match env.pushFault with
        | some e => (pre ++ [CycleStep.fault e], host2)
        | none =>
            (pre ++ [CycleStep.push (replyQueueKey u request.request_id)
                       (WireMessage.response resp),
                     CycleStep.reschedule], host2)

/-- The observable outcome of the hardened variant's `onload` (source lines
374-405): whether the polling loop was scheduled and which notices were
shown. -/
structure OnloadResult where
  pollScheduled : Bool
  notices : List String
deriving DecidableEq, Repr

/-- The hardened variant's `onload` (source lines 374-405).  The
`registerInterval(window.setTimeout(() => this.pollRedisTaskMessageQueue(),
0))` on line 393 runs before the configuration checks on lines 397-404, so
the loop is scheduled in every branch; the checks only decide which notice
to show before returning. -/
def onload (settings : SpanreedSettings) : OnloadResult :=
  let cs := getActiveConnectionSettings settings
  if cs.spanreedUserId == -1 then
    { pollScheduled := true
      notices := ["Please set your Spanreed user ID in the plugin settings."] }
  else if cs.redisUrl == "" then
    { pollScheduled := true
      notices := ["Please set your Redis URL in the plugin settings."] }
  else
    { pollScheduled := true, notices := [] }

/-! ## Supporting lemmas about the front-matter operations -/

lemma fmLookup_fmSet_self (fm : List (String × JsonValue)) (p : String)
    (v : JsonValue) : fmLookup (fmSet fm p v) p = some v := by
  induction fm with
  | nil => simp [fmSet, fmLookup]
  | cons kv rest ih =>
    obtain ⟨k, w⟩ := kv
    cases hk : k == p with
    | true => simp [fmSet, fmLookup, hk]
    | false => simp [fmSet, fmLookup, hk, ih]

lemma jsIndexOf_nonneg_of_mem (xs : List JsonAtom) (v : JsonAtom)
    (h : v ∈ xs) : ¬ jsIndexOf xs v ≤ -1 := by
  unfold jsIndexOf
  cases hf : xs.findIdx? (fun x => x == v) with
  | some i =>
    simp only []
    omega
  | none =>
    rw [List.findIdx?_eq_none_iff] at hf
    have := hf v h
    simp at this

lemma jsIndexOf_le_of_not_mem (xs : List JsonAtom) (v : JsonAtom)
    (h : v ∉ xs) : jsIndexOf xs v ≤ -1 := by
  unfold jsIndexOf
  cases hf : xs.findIdx? (fun x => x == v) with
  | some i =>
    exfalso
    have hsome : xs.findIdx? (fun x => x == v) ≠ none := by simp [hf]
    rw [Ne, List.findIdx?_eq_none_iff] at hsome
    push_neg at hsome
    obtain ⟨a, ha, hav⟩ := hsome
    simp only [Bool.not_eq_false, beq_iff_eq] at hav
    exact h (hav ▸ ha)
  | none => simp

lemma addToListOnFm_fst_idem (p : String) (v : JsonAtom)
    (fm : List (String × JsonValue)) :
    (addToListOnFm p v (addToListOnFm p v fm).1).1 = (addToListOnFm p v fm).1 := by
  unfold addToListOnFm
  cases hl : fmLookup fm p with
  | none =>
    simp only [hl, Option.isNone_none, if_true]
    rw [fmLookup_fmSet_self]
    have h0 : jsIndexOf [] v ≤ -1 := by simp [jsIndexOf]
    simp only [if_pos h0, List.nil_append]
    rw [fmLookup_fmSet_self]
    simp only [Option.isNone_some, Bool.false_eq_true, if_false]
    rw [fmLookup_fmSet_self]
    have h1 : ¬ jsIndexOf [v] v ≤ -1 :=
      jsIndexOf_nonneg_of_mem [v] v (by simp)
    simp [h1]
  | some w =>
    cases w with
    | atom a => simp [hl]
    | arr xs =>
      simp only [hl, Option.isNone_some, Bool.false_eq_true, if_false]
      by_cases hidx : jsIndexOf xs v ≤ -1
      · simp only [if_pos hidx]
        rw [fmLookup_fmSet_self]
        simp only [Option.isNone_some, Bool.false_eq_true, if_false]
        rw [fmLookup_fmSet_self]
        have h1 : ¬ jsIndexOf (xs ++ [v]) v ≤ -1 :=
          jsIndexOf_nonneg_of_mem (xs ++ [v]) v (by simp)
        simp [h1]
      · simp [hl, hidx]

lemma findFile_writeFrontmatter_self (files : List VaultFile) (p : String)
    (fm : List (String × JsonValue)) :
    findFile (writeFrontmatter files p fm) p =
      (findFile files p).map (fun f => { f with frontmatter := fm }) := by
  induction files with
  | nil => simp [findFile, writeFrontmatter]
  | cons f rest ih =>
    obtain ⟨fp, ffm⟩ := f
    simp only [findFile, writeFrontmatter, List.map_cons, List.find?_cons] at ih ⊢
    cases hp : fp == p with
    | true => simp [hp]
    | false =>
      simp only [hp, Bool.false_eq_true, if_false]
      simpa [hp] using ih

lemma writeFrontmatter_idem (files : List VaultFile) (p : String)
    (fm1 fm2 : List (String × JsonValue)) :
    writeFrontmatter (writeFrontmatter files p fm1) p fm2 =
      writeFrontmatter files p fm2 := by
  unfold writeFrontmatter
  rw [List.map_map]
  apply List.map_congr_left
  intro f _
  obtain ⟨fp, ffm⟩ := f
  cases hp : fp == p with
  | true => simp [Function.comp, hp]
  | false => simp [Function.comp, hp]

lemma writeFrontmatter_self_of_uniq (files : List VaultFile) (tfile : VaultFile)
    (huniq : ∀ f ∈ files, f.path = tfile.path → f = tfile) :
    writeFrontmatter files tfile.path tfile.frontmatter = files := by
  unfold writeFrontmatter
  rw [show files = files.map id by simp]
  rw [List.map_map]
  apply List.map_congr_left
  intro f hf
  simp only [List.map_id] at hf
  obtain hp | hp := Bool.eq_false_or_eq_true (f.path == tfile.path)
  · have hfe : f = tfile := huniq f hf (by simpa [beq_iff_eq] using hp)
    subst hfe
    simp [hp]
  · have hp2 : f.path ≠ tfile.path := by simpa [beq_iff_eq] using hp
    simp [hp2]

/-! ## Concrete fixtures used by witnesses and counterexamples -/

/-- A vault with one markdown file carrying one scalar front-matter
property. -/
def sampleFile : VaultFile :=
  { path := "a.md", frontmatter := [("x", JsonValue.atom (JsonAtom.jstr "y"))] }

/-- A host whose dataview table rejects query "q" with message "boom". -/
def sampleHost : Host :=
  { markdownFiles := [sampleFile]
    dataview := [("q", Except.error "boom")]
    frontmatterWriteFault := none }

/-- Configured connection settings for tenant 7. -/
def sampleSettings : ConnectionSettings :=
  { spanreedUserId := 7, redisUrl := "redis://spanreed" }

/-- A cycle in which the blPop delivers a payload `JSON.parse` throws on. -/
def envMalformedPayload : CycleEnv :=
  { connectFault := none, watchdogFault := none
    popOutcome := Except.ok (some (Payload.malformed "oops"))
    pushFault := none }

/-- A request for the rejecting dataview query "q". -/
def reqFaultyQuery : SpanreedRpcRequest :=
  { request_id := "r4", method := "query-dataview"
    params := { filepath := "", property := "", operation := ""
                value := JsonAtom.jnull, query := "q" } }

/-- A cycle in which the blPop delivers the faulty-query request. -/
def envHandlerFault : CycleEnv :=
  { connectFault := none, watchdogFault := none
    popOutcome := Except.ok (some (Payload.wellFormed reqFaultyQuery))
    pushFault := none }

/-- A quiet cycle: connection fine, watchdog fine, blPop times out. -/
def envQuiet : CycleEnv :=
  { connectFault := none, watchdogFault := none
    popOutcome := Except.ok none, pushFault := none }

/-- A request with a method no variant recognizes. -/
def reqFrob : SpanreedRpcRequest :=
  { request_id := "r1", method := "frobnicate"
    params := { filepath := "", property := "", operation := ""
                value := JsonAtom.jnull, query := "" } }

/-- A `read-file` request as the spec describes it (filepath plus text
format, carried in the query field slot being unused). -/
def reqReadFile : SpanreedRpcRequest :=
  { request_id := "r5", method := "read-file"
    params := { filepath := "a.md", property := "", operation := ""
                value := JsonAtom.jstr "text", query := "" } }

/-- A `modify-property` removeFromList request on property "tags", which is
absent from sampleFile's front matter. -/
def reqRemoveAbsent : SpanreedRpcRequest :=
  { request_id := "r2", method := "modify-property"
    params := { filepath := "a.md", property := "tags"
                operation := "removeFromList", value := JsonAtom.jstr "t"
                query := "" } }

/-- Hardened-variant settings whose active (production) environment has the
unconfigured user id `-1` but a usable queue URL. -/
def unconfiguredSettings : SpanreedSettings :=
  { production := { spanreedUserId := -1, redisUrl := "redis://spanreed" }
    staging := { spanreedUserId := -1, redisUrl := "" }
    activeEnvironment := Env.production }

/-! ## Claim theorems -/

/-- C10: the inline dispatch switch of the first plugin variant and
`handleSpanreedRequest` of the second variant compute the same response
envelope and the same host state on every request — the two source blocks
are byte-identical modulo indentation, so their embeddings are
definitionally equal. -/
theorem inlineDispatchV1_eq_handleSpanreedRequest (host : Host)
    (request : SpanreedRpcRequest) :
    inlineDispatchV1 host request = handleSpanreedRequest host request := rfl

/-- C3: a request whose method is none of the three recognized methods
(`generate-daily-note`, `modify-property`, `query-dataview`) produces
exactly the response `{success: false, result: "unknown method <m>"}` and
leaves the host untouched. -/
theorem unknown_method_response (host : Host) (request : SpanreedRpcRequest)
    (h1 : request.method ≠ "generate-daily-note")
    (h2 : request.method ≠ "modify-property")
    (h3 : request.method ≠ "query-dataview") :
    handleSpanreedRequest host request =
      Except.ok ({ success := false
                   result := JsonValue.atom
                     (JsonAtom.jstr ("unknown method " ++ request.method)) }, host) := by
  unfold handleSpanreedRequest
  simp [h1, h2, h3]

/-- Witness for C3 at the concrete method "frobnicate". -/
theorem unknown_method_response_witness :
    reqFrob.method ≠ "generate-daily-note" ∧
    handleSpanreedRequest sampleHost reqFrob =
      Except.ok ({ success := false
                   result := JsonValue.atom
                     (JsonAtom.jstr ("unknown method " ++ reqFrob.method)) }, sampleHost) :=
  ⟨by decide,
   unknown_method_response sampleHost reqFrob (by decide) (by decide) (by decide)⟩

/-- C4 counterexample: a `read-file` request with format "text" on the
existing UTF-8 file "a.md" is not routed to any read-file handler — it falls
through to the unknown-method branch and yields a failure response, not a
success carrying the file's text. -/
theorem readFile_hits_unknown_method_branch :
    handleSpanreedRequest sampleHost reqReadFile =
      Except.ok ({ success := false
                   result := JsonValue.atom
                     (JsonAtom.jstr "unknown method read-file") }, sampleHost) := by
  decide

/-- C4 amended: the dispatcher provides handlers only for
`generate-daily-note`, `modify-property` and `query-dataview`; `read-file`
(like `list-dir` and `move-file`) is absent from the handler table, so every
request with method "read-file" produces the unknown-method failure
response, for any host state. -/
theorem readFile_always_unknown_method (host : Host) (request : SpanreedRpcRequest)
    (h : request.method = "read-file") :
    handleSpanreedRequest host request =
      Except.ok ({ success := false
                   result := JsonValue.atom
                     (JsonAtom.jstr "unknown method read-file") }, host) := by
  unfold handleSpanreedRequest
  simp [h]

/-- Witness for the amended C4 at the concrete read-file request. -/
theorem readFile_always_unknown_method_witness :
    reqReadFile.method = "read-file" ∧
    handleSpanreedRequest sampleHost reqReadFile =
      Except.ok ({ success := false
                   result := JsonValue.atom
                     (JsonAtom.jstr "unknown method read-file") }, sampleHost) :=
  ⟨by decide, readFile_always_unknown_method sampleHost reqReadFile (by decide)⟩

/-- C1 counterexample: in the initial variant's `pollRedisTaskMessageQueue`
(source lines 129-241), a cycle whose blPop delivers a malformed payload
lets the `JSON.parse` rejection escape the method uncaught, and no
reschedule step occurs in that cycle — the fault terminates the loop's
scheduling. -/
theorem pollCycleV1_decode_fault_skips_reschedule :
    ((pollCycleV1 sampleSettings sampleHost envMalformedPayload).1.all
       (fun st => ! st.isReschedule) = true) ∧
    ((pollCycleV1 sampleSettings sampleHost envMalformedPayload).1.any
       CycleStep.isFault = true) := by
  decide

/-- C1 amended: in the hardened variant's `pollRedisTaskMessageQueue`
(source lines 556-585), every cycle — timeout, decode failure, handler
fault, or publish fault — ends by scheduling the next iteration, and no
fault escapes the cycle uncaught; in the initial variant (lines 129-241) a
fault inside the cycle escapes and the reschedule is skipped. -/
theorem pollCycleV2_always_reschedules (settings : ConnectionSettings)
    (host : Host) (env : CycleEnv) :
    (pollCycleV2 settings host env).1.getLast? = some CycleStep.reschedule ∧
    (pollCycleV2 settings host env).1.all (fun st => ! st.isFault) = true := by
  unfold pollCycleV2
  rcases env with ⟨cf, wf, po, pf⟩
  cases cf with
  | some e => exact ⟨rfl, rfl⟩
  | none =>
    cases wf with
    | some e => exact ⟨rfl, rfl⟩
    | none =>
      cases po with
      | error e => exact ⟨rfl, rfl⟩
      | ok o =>
        cases o with
        | none => exact ⟨rfl, rfl⟩
        | some pl =>
          cases pl with
          | malformed raw => exact ⟨rfl, rfl⟩
          | wellFormed request =>
            cases hh : handleSpanreedRequest host request with
            | error e => simp [hh, CycleStep.isFault]
            | ok pr =>
              obtain ⟨resp, host2⟩ := pr
              cases pf with
              | some e => simp [hh, CycleStep.isFault]
              | none => simp [hh, CycleStep.isFault]

/-- C2 counterexample: the faulty-query request has a recognized method
("query-dataview") and its handler rejects with "boom", yet the cycle
publishes no response envelope at all — in particular no failure response
formatted "Request query-dataview failed: boom" — and merely logs the caught
fault. -/
theorem handler_fault_publishes_no_response :
    (handleSpanreedRequest sampleHost reqFaultyQuery = Except.error "boom") ∧
    ((pollCycleV2 sampleSettings sampleHost envHandlerFault).1.all
       (fun st => ! st.isResponsePush) = true) ∧
    (CycleStep.caught "boom" ∈
      (pollCycleV2 sampleSettings sampleHost envHandlerFault).1) := by
  decide

/-- C2 amended: a fault raised while executing the handler of a recognized
method propagates out of `handleSpanreedRequest` and is caught only by the
outer catch of the hardened polling cycle, which logs it; no response
envelope is published to the reply queue for that request, and the loop
still schedules its next iteration — the fault never escalates past the
loop. -/
theorem handler_fault_caught_no_reply (settings : ConnectionSettings)
    (host : Host) (env : CycleEnv) (request : SpanreedRpcRequest) (e : String)
    (hc : env.connectFault = none) (hw : env.watchdogFault = none)
    (hp : env.popOutcome = Except.ok (some (Payload.wellFormed request)))
    (hf : handleSpanreedRequest host request = Except.error e) :
    pollCycleV2 settings host env =
      ([CycleStep.ensureConn,
        CycleStep.push (monitorQueueKey settings.spanreedUserId)
          (WireMessage.monitorEvent settings.spanreedUserId "watchdog" none),
        CycleStep.blPop (taskQueueKey settings.spanreedUserId),
        CycleStep.caught e, CycleStep.reschedule], host) := by
  rcases env with ⟨cf, wf, po, pf⟩
  simp only at hc hw hp
  subst hc hw hp
  unfold pollCycleV2
  simp [hf, sendSpanreedWatchdogEvent]

/-- Witness for the amended C2 at the concrete faulty-query cycle. -/
theorem handler_fault_caught_no_reply_witness :
    envHandlerFault.connectFault = none ∧
    handleSpanreedRequest sampleHost reqFaultyQuery = Except.error "boom" ∧
    pollCycleV2 sampleSettings sampleHost envHandlerFault =
      ([CycleStep.ensureConn,
        CycleStep.push (monitorQueueKey sampleSettings.spanreedUserId)
          (WireMessage.monitorEvent sampleSettings.spanreedUserId "watchdog" none),
        CycleStep.blPop (taskQueueKey sampleSettings.spanreedUserId),
        CycleStep.caught "boom", CycleStep.reschedule], sampleHost) :=
  ⟨rfl, by decide,
   handler_fault_caught_no_reply sampleSettings sampleHost envHandlerFault
     reqFaultyQuery "boom" rfl rfl rfl (by decide)⟩

/-- C7: in every cycle of the hardened dispatch loop, the queue blocked on
is exactly `obsidian-plugin-tasks:<userId>`, every queue pushed to is either
the monitor queue `obsidian-plugin-monitor:<userId>` or a reply queue
`obsidian-plugin-tasks:<userId>:<request_id>`, and
`sendRedisErrorToSpanreedMonitor` pushes to exactly
`obsidian-plugin-monitor:<userId>`. -/
theorem cycle_queue_keys (settings : ConnectionSettings) (host : Host)
    (env : CycleEnv) :
    (∀ q, CycleStep.blPop q ∈ (pollCycleV2 settings host env).1 →
        q = "obsidian-plugin-tasks:" ++ toString settings.spanreedUserId) ∧
    (∀ q m, CycleStep.push q m ∈ (pollCycleV2 settings host env).1 →
        q = "obsidian-plugin-monitor:" ++ toString settings.spanreedUserId ∨
        ∃ rid, q = "obsidian-plugin-tasks:" ++ toString settings.spanreedUserId
                     ++ ":" ++ rid) ∧
    (∀ u m, (sendRedisErrorToSpanreedMonitor u m).1 =
        "obsidian-plugin-monitor:" ++ toString u) := by
  refine ⟨fun q hq => ?_, fun q m hq => ?_, fun u m => rfl⟩ <;>
  · unfold pollCycleV2 at hq
    rcases env with ⟨cf, wf, po, pf⟩
    cases cf with
    | some e => simp_all
    | none =>
      cases wf with
      | some e => simp_all
      | none =>
        cases po with
        | error e =>
            simp_all [sendSpanreedWatchdogEvent, monitorQueueKey, taskQueueKey]
        | ok o =>
          cases o with
          | none =>
              simp_all [sendSpanreedWatchdogEvent, monitorQueueKey, taskQueueKey]
          | some pl =>
            cases pl with
            | malformed raw =>
                simp_all [sendSpanreedWatchdogEvent, monitorQueueKey, taskQueueKey]
            | wellFormed request =>
              cases hh : handleSpanreedRequest host request with
              | error e =>
                  simp_all [sendSpanreedWatchdogEvent, monitorQueueKey, taskQueueKey]
              | ok pr =>
                obtain ⟨resp, host2⟩ := pr
                cases pf with
                | some e =>
                    simp_all [sendSpanreedWatchdogEvent, monitorQueueKey, taskQueueKey]
                | none =>
                    simp only [hh] at hq
                    simp only [sendSpanreedWatchdogEvent, monitorQueueKey,
                               taskQueueKey, replyQueueKey, List.cons_append,
                               List.nil_append, List.mem_cons,
                               List.not_mem_nil, or_false] at hq
                    rcases hq with hq | hq | hq | hq | hq <;> simp_all

/-- Witness for C7: in a concrete quiet cycle for tenant 7 the blocked-on
queue is the task queue named by the claim. -/
theorem cycle_queue_keys_witness :
    CycleStep.blPop "obsidian-plugin-tasks:7" ∈
      (pollCycleV2 sampleSettings sampleHost envQuiet).1 ∧
    "obsidian-plugin-tasks:7" =
      "obsidian-plugin-tasks:" ++ toString sampleSettings.spanreedUserId :=
  ⟨by decide,
   (cycle_queue_keys sampleSettings sampleHost envQuiet).1
     "obsidian-plugin-tasks:7" (by decide)⟩

/-- C8 counterexample: with the active environment unconfigured (userId is
-1, queue URL set), `onload` still schedules the polling loop, and the
scheduled cycle proceeds to normal polling — it blocks on the task queue
`obsidian-plugin-tasks:-1` — so the unconfigured state does not prevent the
loop from starting normal operation. -/
theorem unconfigured_still_polls :
    (getActiveConnectionSettings unconfiguredSettings).spanreedUserId = -1 ∧
    (onload unconfiguredSettings).pollScheduled = true ∧
    CycleStep.blPop "obsidian-plugin-tasks:-1" ∈
      (pollCycleV2 (getActiveConnectionSettings unconfiguredSettings)
        sampleHost envQuiet).1 := by
  decide

/-- C8 amended: when the active connection settings are unconfigured,
`onload` surfaces a one-time user-visible notice, but the dispatch loop is
scheduled unconditionally before the configuration check (and the polling
cycle itself contains no configuration guard), so polling is not
prevented. -/
theorem onload_notice_but_poll_scheduled (settings : SpanreedSettings) :
    (onload settings).pollScheduled = true ∧
    ((getActiveConnectionSettings settings).spanreedUserId = -1 →
      (onload settings).notices =
        ["Please set your Spanreed user ID in the plugin settings."]) ∧
    ((getActiveConnectionSettings settings).spanreedUserId ≠ -1 →
      (getActiveConnectionSettings settings).redisUrl = "" →
      (onload settings).notices =
        ["Please set your Redis URL in the plugin settings."]) := by
  unfold onload
  by_cases h1 : (getActiveConnectionSettings settings).spanreedUserId = -1 <;>
  by_cases h2 : (getActiveConnectionSettings settings).redisUrl = "" <;>
  simp [h1, h2]

/-- Witness for the amended C8 at the concrete unconfigured settings. -/
theorem onload_notice_but_poll_scheduled_witness :
    (getActiveConnectionSettings unconfiguredSettings).spanreedUserId = -1 ∧
    (onload unconfiguredSettings).notices =
      ["Please set your Spanreed user ID in the plugin settings."] :=
  ⟨by decide,
   (onload_notice_but_poll_scheduled unconfiguredSettings).2.1 (by decide)⟩

/-- C9 counterexample: in a concrete successful cycle the monitor event
published between connection establishment and the blocking pop has kind
"watchdog"; no monitor event of kind "heartbeat" is ever published. -/
theorem monitor_event_kind_is_watchdog :
    ((pollCycleV2 sampleSettings sampleHost envQuiet).1.any
       (CycleStep.isMonitorPushOfKind "watchdog") = true) ∧
    ((pollCycleV2 sampleSettings sampleHost envQuiet).1.all
       (fun st => ! CycleStep.isMonitorPushOfKind "heartbeat" st) = true) := by
  decide

/-- C9 amended: on every cycle that gets past connection establishment and
the watchdog publish, the loop publishes — after ensuring a live connection
and before blocking for work — the monitor event `{user: <userId>, kind:
"watchdog"}` (the heartbeat's wire tag is "watchdog", not "heartbeat") to
the monitor queue of the active tenant. -/
theorem watchdog_between_ensure_and_blpop (settings : ConnectionSettings)
    (host : Host) (env : CycleEnv)
    (hc : env.connectFault = none) (hw : env.watchdogFault = none) :
    ∃ rest, (pollCycleV2 settings host env).1 =
      CycleStep.ensureConn ::
      CycleStep.push (monitorQueueKey settings.spanreedUserId)
        (WireMessage.monitorEvent settings.spanreedUserId "watchdog" none) ::
      CycleStep.blPop (taskQueueKey settings.spanreedUserId) :: rest := by
  rcases env with ⟨cf, wf, po, pf⟩
  simp only at hc hw
  subst hc hw
  unfold pollCycleV2
  cases po with
  | error e => exact ⟨_, rfl⟩
  | ok o =>
    cases o with
    | none => exact ⟨_, rfl⟩
    | some pl =>
      cases pl with
      | malformed raw => exact ⟨_, rfl⟩
      | wellFormed request =>
        cases hh : handleSpanreedRequest host request with
        | error e =>
            simp only [hh]
            exact ⟨_, rfl⟩
        | ok pr =>
          obtain ⟨resp, host2⟩ := pr
          cases pf with
          | some e =>
              simp only [hh]
              exact ⟨_, rfl⟩
          | none =>
              simp only [hh]
              exact ⟨_, rfl⟩

/-- Witness for the amended C9 at the concrete quiet cycle. -/
theorem watchdog_between_ensure_and_blpop_witness :
    envQuiet.connectFault = none ∧
    ∃ rest, (pollCycleV2 sampleSettings sampleHost envQuiet).1 =
      CycleStep.ensureConn ::
      CycleStep.push (monitorQueueKey sampleSettings.spanreedUserId)
        (WireMessage.monitorEvent sampleSettings.spanreedUserId "watchdog" none) ::
      CycleStep.blPop (taskQueueKey sampleSettings.spanreedUserId) :: rest :=
  ⟨rfl,
   watchdog_between_ensure_and_blpop sampleSettings sampleHost envQuiet rfl rfl⟩

/-- C5 counterexample: removeFromList on property "tags", entirely absent
from the front matter of the existing file "a.md", leaves the file unchanged
but produces the response `{success: false, result: "unknown error"}` — a
failure, not the success the claim states. -/
theorem removeFromList_absent_yields_failure :
    handleSpanreedRequest sampleHost reqRemoveAbsent =
      Except.ok ({ success := false
                   result := JsonValue.atom (JsonAtom.jstr "unknown error") },
                 sampleHost) := by
  decide

/-- C5 amended: removeFromList on an existing file whose front matter lacks
the named property entirely is a no-op on the front matter — the host state
is unchanged — but the response is the dispatcher's default failure
`{success: false, result: "unknown error"}`, not a success: the callback
returns before assigning `response`, leaving the initial value in place. -/
theorem removeFromList_absent_noop_failure (host : Host)
    (request : SpanreedRpcRequest) (tfile : VaultFile)
    (hm : request.method = "modify-property")
    (hop : request.params.operation = "removeFromList")
    (hfind : findFile host.markdownFiles request.params.filepath = some tfile)
    (habs : fmLookup tfile.frontmatter request.params.property = none)
    (hfault : host.frontmatterWriteFault = none)
    (huniq : ∀ f ∈ host.markdownFiles, f.path = tfile.path → f = tfile) :
    handleSpanreedRequest host request =
      Except.ok ({ success := false
                   result := JsonValue.atom (JsonAtom.jstr "unknown error") },
                 host) := by
  obtain ⟨rid, m, ps⟩ := request
  obtain ⟨fp, prop, op, v, qq⟩ := ps
  simp only at hm hop hfind habs
  subst hm
  subst hop
  unfold handleSpanreedRequest
  simp only [hfind]
  simp [processFrontMatter, hfault, removeFromListOnFm, habs, defaultResponse]
  rw [writeFrontmatter_self_of_uniq host.markdownFiles tfile huniq]
  rw [← hfault]

/-- Witness for the amended C5 at the concrete absent-property request. -/
theorem removeFromList_absent_noop_failure_witness :
    reqRemoveAbsent.params.operation = "removeFromList" ∧
    findFile sampleHost.markdownFiles reqRemoveAbsent.params.filepath =
      some sampleFile ∧
    handleSpanreedRequest sampleHost reqRemoveAbsent =
      Except.ok ({ success := false
                   result := JsonValue.atom (JsonAtom.jstr "unknown error") },
                 sampleHost) :=
  ⟨rfl, by decide,
   removeFromList_absent_noop_failure sampleHost reqRemoveAbsent sampleFile
     rfl rfl (by decide) (by decide) rfl
     (by decide)⟩

/-- Helper for C6, at the runtime level: re-dispatching the very same
already-parsed request object (same runtime `value`, including the same
reference identity when it is a `jref`) is idempotent — the value is
appended only when `indexOf` does not already find it.  This does not by
itself give idempotence of the program, where each application re-parses the
wire text (see `parseRequest`). -/
lemma addToList_runtime_idem (host : Host) (request : SpanreedRpcRequest)
    (resp1 : SpanreedRpcResponse) (host1 : Host)
    (hm : request.method = "modify-property")
    (hop : request.params.operation = "addToList")
    (h1 : handleSpanreedRequest host request = Except.ok (resp1, host1)) :
    ∃ resp2, handleSpanreedRequest host1 request = Except.ok (resp2, host1) := by
  obtain ⟨rid, m, ps⟩ := request
  obtain ⟨fp, prop, op, v, qq⟩ := ps
  simp only at hm hop
  subst hm
  subst hop
  unfold handleSpanreedRequest at h1 ⊢
  norm_num at h1 ⊢
  rw [if_neg (by decide : ¬ ("modify-property" : String) = "generate-daily-note")] at h1 ⊢
  cases hfind : findFile host.markdownFiles fp with
  | none =>
    simp only [hfind] at h1
    simp only [Except.ok.injEq, Prod.mk.injEq] at h1
    obtain ⟨h1r, h1h⟩ := h1
    subst h1h
    refine ⟨{ success := false, result := JsonValue.atom (JsonAtom.jstr "file not found") }, ?_⟩
    simp only [hfind]
  | some tfile =>
    have hfind2 : host.markdownFiles.find? (fun f => f.path == fp) = some tfile :=
      hfind
    have hpath : tfile.path = fp := by
      have hb := List.find?_some hfind2
      simpa [beq_iff_eq] using hb
    cases hfw : host.frontmatterWriteFault with
    | some e => simp [hfind, processFrontMatter, hfw] at h1
    | none =>
      simp only [hfind, processFrontMatter, hfw, Except.ok.injEq,
                 Prod.mk.injEq] at h1
      obtain ⟨h1r, h1h⟩ := h1
      subst h1h
      refine ⟨(addToListOnFm prop v
                 (addToListOnFm prop v tfile.frontmatter).1).2.getD defaultResponse, ?_⟩
      rw [hpath]
      rw [findFile_writeFrontmatter_self, hfind]
      simp only [Option.map_some', processFrontMatter, hfw, hpath]
      rw [addToListOnFm_fst_idem]
      rw [writeFrontmatter_idem]

/-- The host state after one successful addToList of "t" into the absent
"tags" property of sampleHost's file "a.md". -/
def sampleHostAfterAdd : Host :=
  { markdownFiles := [{ path := "a.md"
                        frontmatter := [("x", JsonValue.atom (JsonAtom.jstr "y")),
                                        ("tags", JsonValue.arr [JsonAtom.jstr "t"])] }]
    dataview := [("q", Except.error "boom")]
    frontmatterWriteFault := none }

lemma parseRequest_fst_of_primitive (w : WireRequest) (n m : Nat)
    (h : w.params.value.isPrimitive = true) :
    (parseRequest w n).1 = (parseRequest w m).1 := by
  obtain ⟨rid, mth, ⟨fp, prop, op, v, qq⟩⟩ := w
  cases v <;> simp_all [parseRequest, parseParamValue, WireValue.isPrimitive]

/-- The wire text of an addToList request whose value is the JSON string
literal "t" (a primitive). -/
def wireAddTag : WireRequest :=
  { request_id := "r3", method := "modify-property"
    params := { filepath := "a.md", property := "tags"
                operation := "addToList", value := WireValue.wstr "t"
                query := "" } }

/-- The wire text of an addToList request whose value is the JSON array
literal `[1]` (a composite, parsed to a fresh object on every parse). -/
def wireAddArray : WireRequest :=
  { request_id := "r6", method := "modify-property"
    params := { filepath := "a.md", property := "tags"
                operation := "addToList", value := WireValue.wcomposite "[1]"
                query := "" } }

/-- sampleHost after the first dispatch of wireAddArray (parsed with
allocation counter 0): the array object with identity 0 was appended. -/
def sampleHostArr1 : Host :=
  { markdownFiles := [{ path := "a.md"
                        frontmatter := [("x", JsonValue.atom (JsonAtom.jstr "y")),
                                        ("tags", JsonValue.arr [JsonAtom.jref 0 "[1]"])] }]
    dataview := [("q", Except.error "boom")]
    frontmatterWriteFault := none }

/-- sampleHostArr1 after the second dispatch of the same wire request
(parsed with the counter left by the first parse): `indexOf` does not find
the fresh object with identity 1, so it is appended again. -/
def sampleHostArr2 : Host :=
  { markdownFiles := [{ path := "a.md"
                        frontmatter := [("x", JsonValue.atom (JsonAtom.jstr "y")),
                                        ("tags", JsonValue.arr [JsonAtom.jref 0 "[1]",
                                                                JsonAtom.jref 1 "[1]"])] }]
    dataview := [("q", Except.error "boom")]
    frontmatterWriteFault := none }

/-- C6 counterexample: addToList with the array value `[1]` — the same wire
request dispatched twice, each dispatch parsing the request text as the
program does — is not idempotent: `indexOf`'s strict equality compares the
freshly parsed array by reference, never finds the copy stored by the first
application, and appends it again, so the front-matter list after two
applications differs from the list after one. -/
theorem addToList_composite_not_idempotent :
    (handleSpanreedRequest sampleHost (parseRequest wireAddArray 0).1 =
      Except.ok ({ success := true, result := JsonValue.atom JsonAtom.jnull },
                 sampleHostArr1)) ∧
    (handleSpanreedRequest sampleHostArr1
        (parseRequest wireAddArray (parseRequest wireAddArray 0).2).1 =
      Except.ok ({ success := true, result := JsonValue.atom JsonAtom.jnull },
                 sampleHostArr2)) ∧
    sampleHostArr2 ≠ sampleHostArr1 := by
  decide

/-- C6 amended: `modify-property` with operation addToList is idempotent for
primitive parameter values (null, boolean, number, string): re-dispatching
the same wire request, re-parsed as the program does on every cycle, leaves
the host state — in particular the front-matter list — unchanged after a
successful first application, because the value is appended only when
`indexOf` does not already find it and strict equality identifies equal
primitives.  For array/object values each parse allocates a fresh reference
that `indexOf` never finds, so idempotence fails there. -/
theorem addToList_idempotent_for_primitives (host : Host) (w : WireRequest)
    (n1 n2 : Nat) (resp1 : SpanreedRpcResponse) (host1 : Host)
    (hm : w.method = "modify-property")
    (hop : w.params.operation = "addToList")
    (hprim : w.params.value.isPrimitive = true)
    (h1 : handleSpanreedRequest host (parseRequest w n1).1 =
            Except.ok (resp1, host1)) :
    ∃ resp2, handleSpanreedRequest host1 (parseRequest w n2).1 =
      Except.ok (resp2, host1) := by
  rw [parseRequest_fst_of_primitive w n2 n1 hprim]
  exact addToList_runtime_idem host (parseRequest w n1).1 resp1 host1 hm hop h1

/-- Witness for the amended C6 at the concrete primitive request, parsed
with two different allocation counters: the first application produces
sampleHostAfterAdd and the second leaves it unchanged. -/
theorem addToList_idempotent_for_primitives_witness :
    wireAddTag.params.value.isPrimitive = true ∧
    handleSpanreedRequest sampleHost (parseRequest wireAddTag 0).1 =
      Except.ok ({ success := true, result := JsonValue.atom JsonAtom.jnull },
                 sampleHostAfterAdd) ∧
    ∃ resp2, handleSpanreedRequest sampleHostAfterAdd (parseRequest wireAddTag 7).1 =
      Except.ok (resp2, sampleHostAfterAdd) :=
  ⟨rfl, by decide,
   addToList_idempotent_for_primitives sampleHost wireAddTag 0 7
     { success := true, result := JsonValue.atom JsonAtom.jnull }
     sampleHostAfterAdd rfl rfl rfl (by decide)⟩

end Spanreed
